import Mathlib

/-!
Verification of the sales-forecaster model lifecycle backend
(`app/backend.py`): model loading with local fallback, the background
auto-reload loop, the prediction endpoint with input validation and the
confidence heuristic, and the model comparison endpoint.

The Python module state (globals `model`, `model_version`,
`model_metadata`) is embedded as an explicit `ServingState`; each
endpoint or background-loop body becomes a function on that state.
Registry interactions (MLflow client calls) are embedded as environment
records whose fallible operations return `Except`, mirroring the
`try/except` structure of the source.  Floating point metric values are
embedded as rationals.
-/

/-- One registry entry, as returned by the MLflow client
(`ModelVersion`): version ordinal, run id, stage tag, creation time. -/
structure RegVersion where
  version : Nat
  runId : String
  stage : String
  creationTimestamp : Nat
deriving DecidableEq, Repr

/-- The `model_metadata` global: a dict whose keys may be absent.
The registry branch fills all keys; the local branch fills only
`source`. -/
structure ModelMeta where
  version : Option Nat
  runId : Option String
  stage : Option String
  createdAt : Option Nat
  source : Option String
deriving DecidableEq, Repr

/-- The process-wide globals of `backend.py`: `model` (the loaded
artifact, embedded as an opaque numeric artifact id; `none` means the
Python global is `None`), `model_version`, `model_metadata`. -/
structure ServingState where
  model : Option Nat
  model_version : Option String
  model_metadata : ModelMeta
deriving DecidableEq, Repr

/-- The empty metadata dict `{}`. -/
def ModelMeta.empty : ModelMeta := ⟨none, none, none, none, none⟩

/-- Environment seen by the startup loader `load_model`:
whether MLflow uri+username+password are all configured, the outcome of
the registry load attempt (artifact plus the `get_latest_versions`
Production list), and the local artifact file if it exists. -/
structure StartupEnv where
  credsPresent : Bool
  registryOutcome : Except String (Nat × List RegVersion)
  localFile : Option Nat
deriving Repr

/-- `load_local_model`: if `../models/trained/model.pkl` exists, load it
and set version `"Local File"` and metadata `{source: local_file}`;
otherwise set the `model` global to `None` (the other globals keep
their previous values). -/
def load_local_model (env : StartupEnv) (st : ServingState) : ServingState :=
  match env.localFile with
  | some artifact =>
      { model := some artifact
        model_version := some "Local File"
        model_metadata := { ModelMeta.empty with source := some "local_file" } }
  | none => { st with model := none }

/-- `load_model` (the `startup` handler): with full registry
configuration, try the registry; on any exception fall back to
`load_local_model`.  On registry success the artifact is stored, and if
a Production version exists its metadata is recorded, else
`model_version` is set to `"Unknown"`. -/
def load_model (env : StartupEnv) (st : ServingState) : ServingState :=
  if env.credsPresent then
    match env.registryOutcome with
    | .ok (artifact, prodVersions) =>
        match prodVersions with
        | latest :: _ =>
            { model := some artifact
              model_version := some ("v" ++ toString latest.version)
              model_metadata :=
                { version := some latest.version
                  runId := some latest.runId
                  stage := some latest.stage
                  createdAt := some latest.creationTimestamp
                  source := some "DagsHub MLflow Registry" } }
        | [] =>
            { st with model := some artifact, model_version := some "Unknown" }
    | .error _ => load_local_model env st
  else
    load_local_model env st

/-- Response of `GET /model/reload`. -/
structure ReloadResponse where
  status : String
  model_version : Option String
deriving DecidableEq, Repr

/-- `GET /model/reload`: rerun the startup loader `load_model` and
report the resulting version. -/
def reload_model (env : StartupEnv) (st : ServingState) :
    ServingState × ReloadResponse :=
  let st' := load_model env st
  (st', ⟨"reloaded", st'.model_version⟩)

/-- Response of `GET /health`. -/
structure HealthResponse where
  status : String
  model_loaded : Bool
  model_version : Option String
deriving DecidableEq, Repr

/-- `GET /health`: 503 if the `model` global is `None`, else a healthy
response. -/
def health_check (st : ServingState) : Except Nat HealthResponse :=
  match st.model with
  | none => .error 503
  | some _ => .ok ⟨"healthy", true, st.model_version⟩

/-- Python's `s.startswith(pre)`, embedded on the character lists of
the two strings. -/
def strStartsWith (s pre : String) : Bool := pre.data.isPrefixOf s.data

/-- Environment seen by one iteration of the background reload loop
`check_for_new_model`: the `MLFLOW_TRACKING_URI` value, the outcome of
`get_latest_versions(stages=["Production"])`, and the outcome of
reloading the model artifact when a swap is attempted. -/
structure TickEnv where
  mlflowUri : Option String
  prodVersions : Except String (List RegVersion)
  reloadOutcome : Except String Nat
deriving Repr

/-- The decision part of one `check_for_new_model` loop iteration:
`some latest` when a reload is triggered, `none` when the tick is
skipped.  Skips: uri unset or not starting with `"http"`; metadata
`version` falsy (absent or 0); registry query failure; empty Production
list; version string equal to the served one.  A reload is triggered
whenever the version strings differ. -/
def check_decision (env : TickEnv) (st : ServingState) : Option RegVersion :=
  match env.mlflowUri with
  | none => none
  | some uri =>
      if ¬ strStartsWith uri "http" then none
      else
        match st.model_metadata.version with
        | none => none
        | some currentVersion =>
            if currentVersion = 0 then none
            else
              match env.prodVersions with
              | .error _ => none
              | .ok [] => none
              | .ok (latest :: _) =>
                  if toString latest.version ≠ toString currentVersion then
                    some latest
                  else none

/-- One full iteration of the `check_for_new_model` loop as a state
transformer: on a skip or on a reload failure the globals are
untouched; on a successful reload the three globals are reassigned. -/
def check_for_new_model (env : TickEnv) (st : ServingState) : ServingState :=
  match check_decision env st with
  | none => st
  | some latest =>
      match env.reloadOutcome with
      | .error _ => st
      | .ok newArtifact =>
          { model := some newArtifact
            model_version := some ("v" ++ toString latest.version)
            model_metadata :=
              { version := some latest.version
                runId := some latest.runId
                stage := some latest.stage
                createdAt := some latest.creationTimestamp
                source := some "DagsHub MLflow Registry" } }

/-- Request body of `POST /predict`, before validation: the five raw
feature values as sent by the client.  Float fields are embedded as
rationals, int fields as integers. -/
structure PredictionRequest where
  advertising_spend : ℚ
  promotions : ℤ
  day_of_week : ℤ
  month : ℤ
  is_weekend : ℤ
deriving DecidableEq, Repr

/-- The pydantic `Field` range constraints of `PredictionRequest`:
`advertising_spend ∈ [0, 10000]`, `promotions ∈ [0, 1]`,
`day_of_week ∈ [0, 6]`, `month ∈ [1, 12]`, `is_weekend ∈ [0, 1]`. -/
def validRequest (r : PredictionRequest) : Bool :=
  (0 ≤ r.advertising_spend && r.advertising_spend ≤ 10000) &&
  (0 ≤ r.promotions && r.promotions ≤ 1) &&
  (0 ≤ r.day_of_week && r.day_of_week ≤ 6) &&
  (1 ≤ r.month && r.month ≤ 12) &&
  (0 ≤ r.is_weekend && r.is_weekend ≤ 1)

/-- Errors surfaced by the API, tagged with their HTTP status code. -/
inductive ApiError where
  | invalidInput (code : Nat)
  | modelNotLoaded (code : Nat)
deriving DecidableEq, Repr

/-- Response body of `POST /predict`. -/
structure PredictionResponse where
  prediction : ℚ
  model_version : Option String
  confidence : ℚ
deriving DecidableEq, Repr

/-- `POST /predict`: FastAPI rejects a body violating the pydantic
constraints with a 422 before the handler runs; the handler returns 503
when the `model` global is `None`, and otherwise applies the loaded
artifact (`predictor artifactId` applied to the unmodified request
fields) and attaches the two-bucket confidence
`0.85 if 80 < prediction < 200 else 0.70`. -/
def predict (predictor : Nat → PredictionRequest → ℚ)
    (st : ServingState) (r : PredictionRequest) :
    Except ApiError PredictionResponse :=
  if ¬ validRequest r then .error (.invalidInput 422)
  else
    match st.model with
    | none => .error (.modelNotLoaded 503)
    | some artifactId =>
        let prediction := predictor artifactId r
        .ok ⟨prediction, st.model_version,
             if 80 < prediction ∧ prediction < 200 then 85/100 else 70/100⟩

/-- A metrics dict of an MLflow run: metric name to value. -/
def MetricsDict : Type := List (String × ℚ)

/-- `d.get(k, default)` on a metrics dict. -/
def dictGet (d : MetricsDict) (k : String) (default : ℚ) : ℚ :=
  match List.lookup k d with
  | some v => v
  | none => default

/-- `metrics.get(k1, metrics.get(k2, 0))` — the double fallback used
for every metric extraction in `backend.py`. -/
def metricOr (d : MetricsDict) (k1 k2 : String) : ℚ :=
  dictGet d k1 (dictGet d k2 0)

/-- `mae_delta`: percentage change for the lower-is-better MAE metric,
guarded by `previous_mae > 0`. -/
def mae_delta (previous current : ℚ) : ℚ :=
  if previous > 0 then (previous - current) / previous * 100 else 0

/-- `rmse_delta`: percentage change for the lower-is-better RMSE
metric, guarded by `previous_rmse > 0`. -/
def rmse_delta (previous current : ℚ) : ℚ :=
  if previous > 0 then (previous - current) / previous * 100 else 0

/-- `r2_delta`: percentage change for the higher-is-better R² metric,
guarded by `previous_r2 > 0`. -/
def r2_delta (previous current : ℚ) : ℚ :=
  if previous > 0 then (current - previous) / previous * 100 else 0

/-- Python's `round` to an integer: nearest integer, ties to even. -/
def roundHalfEven (q : ℚ) : ℤ :=
  if q - ⌊q⌋ < 1/2 then ⌊q⌋
  else if 1/2 < q - ⌊q⌋ then ⌊q⌋ + 1
  else if ⌊q⌋ % 2 = 0 then ⌊q⌋ else ⌊q⌋ + 1

/-- Python's `round(x, 2)` used for the displayed deltas. -/
def pyRound2 (q : ℚ) : ℚ := (roundHalfEven (q * 100) : ℚ) / 100

/-- Verdict string for one metric:
`"improved" if delta > 0 else "degraded" if delta < 0 else
"unchanged"`. -/
def verdict (delta : ℚ) : String :=
  if delta > 0 then "improved" else if delta < 0 then "degraded" else "unchanged"

/-- The `metrics` sub-dict reported for a version in the comparison
response. -/
structure MetricsOut where
  mae : ℚ
  rmse : ℚ
  r2_score : ℚ
deriving DecidableEq, Repr

/-- The `current_version` / `previous_version` blocks of the
comparison response. -/
structure VersionOut where
  version : Nat
  run_id : String
  metrics : MetricsOut
deriving DecidableEq, Repr

/-- The `deltas` block of the comparison response (values rounded to
two decimals). -/
structure DeltasOut where
  mae_percent : ℚ
  rmse_percent : ℚ
  r2_percent : ℚ
deriving DecidableEq, Repr

/-- The `improvement` block of the comparison response. -/
structure ImprovementOut where
  mae : String
  rmse : String
  r2 : String
deriving DecidableEq, Repr

/-- The JSON object returned by `GET /model/compare`; keys the Python
dict omits are `none`. -/
structure CompareResponse where
  has_comparison : Bool
  error : Option String
  message : Option String
  current_version : Option VersionOut
  previous_version : Option VersionOut
  deltas : Option DeltasOut
  improvement : Option ImprovementOut
deriving DecidableEq, Repr

/-- The registry as seen by `GET /model/compare`: the outcome of
`search_model_versions` and the metric dicts of the runs
(`mlflow.get_run(run_id).data.metrics`; a run id missing from the list
makes `get_run` raise). -/
structure Registry where
  searchVersions : Except String (List RegVersion)
  runs : List (String × MetricsDict)

/-- `mlflow.get_run(runId).data.metrics`, raising when the run does not
exist. -/
def Registry.getRunMetrics (reg : Registry) (runId : String) :
    Except String MetricsDict :=
  match List.lookup runId reg.runs with
  | some d => .ok d
  | none => .error ("run " ++ runId ++ " not found")

/-- `sorted(all_versions, key=lambda x: int(x.version), reverse=True)`:
stable descending sort by version ordinal. -/
def sortVersionsDesc (vs : List RegVersion) : List RegVersion :=
  vs.mergeSort (fun a b => b.version ≤ a.version)

/-- An error-shaped comparison response
`{"error": e, "has_comparison": False}`. -/
def compareErrorResponse (e : String) : CompareResponse :=
  ⟨false, some e, none, none, none, none, none⟩

/-- The body of the `try` block of `compare_models`; a `.error` result
is an exception reaching the `except` clause.  Early `return`s of
error-shaped dicts are `.ok` results. -/
def compare_models_body (reg : Registry) : Except String CompareResponse := do
  let all_versions ← reg.searchVersions
  if all_versions.length < 1 then
    return compareErrorResponse "No model versions found"
  let sorted_versions := sortVersionsDesc all_versions
  let prod_versions := sorted_versions.filter (fun v => v.stage = "Production")
  match prod_versions with
  | [] => return compareErrorResponse "No Production model found"
  | current_version :: _ =>
      let current_metrics ← reg.getRunMetrics current_version.runId
      let previous? :=
        sorted_versions.find? (fun v => v.version < current_version.version)
      match previous? with
      | some previous_version => do
          let previous_metrics ← reg.getRunMetrics previous_version.runId
          let current_mae := metricOr current_metrics "mae" "test_mae"
          let previous_mae := metricOr previous_metrics "mae" "test_mae"
          let current_rmse := metricOr current_metrics "rmse" "test_rmse"
          let previous_rmse := metricOr previous_metrics "rmse" "test_rmse"
          let current_r2 := metricOr current_metrics "r2_score" "test_r2"
          let previous_r2 := metricOr previous_metrics "r2_score" "test_r2"
          let maeD := mae_delta previous_mae current_mae
          let rmseD := rmse_delta previous_rmse current_rmse
          let r2D := r2_delta previous_r2 current_r2
          return { has_comparison := true
                   error := none
                   message := none
                   current_version := some
                     ⟨current_version.version, current_version.runId,
                      ⟨current_mae, current_rmse, current_r2⟩⟩
                   previous_version := some
                     ⟨previous_version.version, previous_version.runId,
                      ⟨previous_mae, previous_rmse, previous_r2⟩⟩
                   deltas := some
                     ⟨pyRound2 maeD, pyRound2 rmseD, pyRound2 r2D⟩
                   improvement := some
                     ⟨verdict maeD, verdict rmseD, verdict r2D⟩ }
      | none =>
          let current_mae := metricOr current_metrics "mae" "test_mae"
          let current_rmse := metricOr current_metrics "rmse" "test_rmse"
          let current_r2 := metricOr current_metrics "r2_score" "test_r2"
          return { has_comparison := false
                   error := none
                   message := some "This is the first model version"
                   current_version := some
                     ⟨current_version.version, current_version.runId,
                      ⟨current_mae, current_rmse, current_r2⟩⟩
                   previous_version := none
                   deltas := none
                   improvement := none }

/-- `compare_models` after its `try/except`: any exception `e` becomes
the normal response `{"error": str(e), "has_comparison": False}`. -/
def compare_models (reg : Registry) : CompareResponse :=
  match compare_models_body reg with
  | .ok resp => resp
  | .error e => compareErrorResponse e

/-- `GET /model/compare` as an endpoint on the serving state: 503 when
no model is loaded, else the comparison response; the handler never
writes the serving state. -/
def compare_endpoint (reg : Registry) (st : ServingState) :
    ServingState × Except ApiError CompareResponse :=
  (st,
   match st.model with
   | none => .error (.modelNotLoaded 503)
   | some _ => .ok (compare_models reg))

/-- The shared globals touched by a concurrent `predict` call and a
`check_for_new_model` swap. -/
structure SharedGlobals where
  model : Nat
  model_version : String
  metaVersion : Nat
deriving DecidableEq, Repr

/-- One atomic access to the shared globals.  A `predict` handler
performs `readModel` (line `prediction = model.predict(...)`) and then
`readVersion` (building the response from `model_version`); a swap in
`check_for_new_model` performs the three assignments `writeModel`,
`writeVersion`, `writeMeta` in that order. -/
inductive SharedAction where
  | readModel
  | readVersion
  | writeModel (a : Nat)
  | writeVersion (v : String)
  | writeMeta (n : Nat)
deriving DecidableEq, Repr

/-- The accesses of one `predict` call, in program order. -/
def predictAccesses : List SharedAction :=
  [.readModel, .readVersion]

/-- The accesses of one successful swap in `check_for_new_model`, in
program order: the three global assignments. -/
def swapAccesses (newArtifact : Nat) (newVersion : String) (newMeta : Nat) :
    List SharedAction :=
  [.writeModel newArtifact, .writeVersion newVersion, .writeMeta newMeta]

/-- `isInterleaving xs ys zs` checks that `zs` is a merge of `xs` and
`ys`, each kept in program order. -/
def isInterleaving : List SharedAction → List SharedAction →
    List SharedAction → Bool
  | xs, ys, [] => xs.isEmpty && ys.isEmpty
  | xs, ys, z :: zs =>
      (match xs with
       | x :: xs' => x = z && isInterleaving xs' ys zs
       | [] => false) ||
      (match ys with
       | y :: ys' => y = z && isInterleaving xs ys' zs
       | [] => false)

/-- Execution state of an interleaved run: the globals plus the local
values captured by the `predict` handler (the artifact its prediction
came from, and the version it put in the response). -/
structure RunState where
  g : SharedGlobals
  predictionFrom : Option Nat
  responseVersion : Option String
deriving DecidableEq, Repr

/-- Effect of one atomic access. -/
def execAccess (s : RunState) : SharedAction → RunState
  | .readModel => { s with predictionFrom := some s.g.model }
  | .readVersion => { s with responseVersion := some s.g.model_version }
  | .writeModel a => { s with g := { s.g with model := a } }
  | .writeVersion v => { s with g := { s.g with model_version := v } }
  | .writeMeta n => { s with g := { s.g with metaVersion := n } }

/-- Run a list of accesses, returning the final state and the list of
globals values after each access. -/
def execAccesses (s : RunState) : List SharedAction →
    RunState × List SharedGlobals
  | [] => (s, [])
  | a :: rest =>
      let s' := execAccess s a
      let (fin, hist) := execAccesses s' rest
      (fin, s'.g :: hist)

/-- Every value the globals held during a run, the initial value
included. -/
def slotHistory (s : RunState) (accesses : List SharedAction) :
    List SharedGlobals :=
  s.g :: (execAccesses s accesses).2

/-- Auxiliary: the head of a filtered list is its first element
satisfying the predicate. -/
theorem head?_filter_eq_find? {α : Type} (q : α → Bool) (l : List α) :
    (l.filter q).head? = l.find? q := by
  induction l with
  | nil => rfl
  | cons a l ih =>
      rw [List.filter_cons, List.find?_cons]
      cases hqa : q a <;> simp [ih]

/-- Auxiliary: in a list sorted descending by version ordinal, the
first element satisfying a predicate has the greatest ordinal among
all elements satisfying it. -/
theorem find?_version_max {p : RegVersion → Bool} {l : List RegVersion}
    {x : RegVersion}
    (hs : l.Pairwise (fun a b => b.version ≤ a.version))
    (hf : l.find? p = some x) :
    ∀ y ∈ l, p y = true → y.version ≤ x.version := by
  induction l with
  | nil => simp at hf
  | cons a l ih =>
      rw [List.find?_cons] at hf
      cases hpa : p a with
      | true =>
          rw [hpa] at hf
          obtain rfl : a = x := by simpa using hf
          intro y hy _
          rcases List.mem_cons.mp hy with rfl | hyl
          · exact le_refl _
          · exact (List.pairwise_cons.mp hs).1 y hyl
      | false =>
          rw [hpa] at hf
          intro y hy hpy
          rcases List.mem_cons.mp hy with rfl | hyl
          · rw [hpy] at hpa; cases hpa
          · exact ih (List.pairwise_cons.mp hs).2 hf y hyl hpy

/-- Auxiliary: `sortVersionsDesc` sorts descending by version
ordinal. -/
theorem sortVersionsDesc_sorted (vs : List RegVersion) :
    (sortVersionsDesc vs).Pairwise (fun a b => b.version ≤ a.version) := by
  unfold sortVersionsDesc
  refine List.Pairwise.imp (fun hab => of_decide_eq_true hab)
    (List.sorted_mergeSort ?_ ?_ vs)
  · intro a b c hab hbc
    simp only [decide_eq_true_eq] at *
    exact le_trans hbc hab
  · intro a b
    simp only [Bool.or_eq_true, decide_eq_true_eq]
    exact le_total b.version a.version

/-- Auxiliary: sorting does not change membership. -/
theorem mem_sortVersionsDesc {a : RegVersion} {vs : List RegVersion} :
    a ∈ sortVersionsDesc vs ↔ a ∈ vs := List.mem_mergeSort

/-- Claim C7: every successful prediction carries confidence exactly
0.85 when the predicted value is strictly between 80 and 200 and
exactly 0.70 otherwise (boundary values 80 and 200 included in the
0.70 bucket); no other confidence value is produced. -/
theorem claim_C7 (predictor : Nat → PredictionRequest → ℚ)
    (st : ServingState) (r : PredictionRequest) (resp : PredictionResponse)
    (h : predict predictor st r = .ok resp) :
    resp.confidence =
      (if 80 < resp.prediction ∧ resp.prediction < 200 then 85/100 else 70/100) ∧
    (resp.confidence = 85/100 ∨ resp.confidence = 70/100) ∧
    (resp.prediction = 80 → resp.confidence = 70/100) ∧
    (resp.prediction = 200 → resp.confidence = 70/100) := by
  unfold predict at h
  by_cases hv : validRequest r
  · rw [if_neg (by simpa using hv)] at h
    cases hm : st.model with
    | none => rw [hm] at h; cases h
    | some artifactId =>
        rw [hm] at h
        obtain rfl : (⟨predictor artifactId r, st.model_version,
            if 80 < predictor artifactId r ∧ predictor artifactId r < 200
            then 85/100 else 70/100⟩ : PredictionResponse) = resp := by
          simpa using h
        refine ⟨rfl, ?_, ?_, ?_⟩
        · by_cases hband : 80 < predictor artifactId r ∧ predictor artifactId r < 200
          · left; simp [hband]
          · right; simp [hband]
        · intro hp
          simp only [show predictor artifactId r = 80 from hp]
          norm_num
        · intro hp
          simp only [show predictor artifactId r = 200 from hp]
          norm_num
  · rw [if_pos (by simpa using hv)] at h
    cases h

/-- Claim C7 witness: a ready model yielding value 100 gives
confidence 0.85. -/
theorem claim_C7_witness :
    (⟨100, some "v1", 85/100⟩ : PredictionResponse).confidence =
      (if (80 : ℚ) < (⟨100, some "v1", 85/100⟩ : PredictionResponse).prediction ∧
          (⟨(100 : ℚ), some "v1", 85/100⟩ : PredictionResponse).prediction < 200
       then 85/100 else 70/100) := by
  have hreq : validRequest ⟨3000, 1, 0, 1, 0⟩ = true := by
    unfold validRequest
    norm_num
  have h : predict (fun _ _ => (100 : ℚ))
      ⟨some 1, some "v1", ModelMeta.empty⟩ ⟨3000, 1, 0, 1, 0⟩ =
      .ok ⟨100, some "v1", 85/100⟩ := by
    unfold predict
    rw [hreq]
    norm_num
  exact (claim_C7 (fun _ _ => (100 : ℚ))
    ⟨some 1, some "v1", ModelMeta.empty⟩ ⟨3000, 1, 0, 1, 0⟩ _ h).1

/-- Claim C6: a request with any field out of range is rejected with
the 422 validation error, and the predictor artifact is never invoked
(the endpoint's outcome does not depend on the predictor at all), so no
out-of-range value is ever clamped. -/
theorem claim_C6 (p1 p2 : Nat → PredictionRequest → ℚ)
    (st : ServingState) (r : PredictionRequest)
    (h : validRequest r = false) :
    predict p1 st r = .error (.invalidInput 422) ∧
    predict p1 st r = predict p2 st r := by
  unfold predict
  rw [h]
  simp

/-- Claim C6 witness: `advertising_spend = -1` is rejected with 422
regardless of the loaded artifact. -/
theorem claim_C6_witness :
    predict (fun _ _ => (0 : ℚ)) ⟨some 1, some "v1", ModelMeta.empty⟩
      ⟨-1, 0, 0, 1, 0⟩ = .error (.invalidInput 422) ∧
    predict (fun _ _ => (0 : ℚ)) ⟨some 1, some "v1", ModelMeta.empty⟩
      ⟨-1, 0, 0, 1, 0⟩ =
    predict (fun _ _ => (999 : ℚ)) ⟨some 1, some "v1", ModelMeta.empty⟩
      ⟨-1, 0, 0, 1, 0⟩ := by
  refine claim_C6 _ _ _ _ ?_
  unfold validRequest
  norm_num

/-- Claim C9: with an unchanged registry, the compare endpoint does not
modify the serving state, and a second invocation returns the identical
comparison response. -/
theorem claim_C9 (reg : Registry) (st : ServingState) :
    (compare_endpoint reg st).1 = st ∧
    (compare_endpoint reg (compare_endpoint reg st).1).2 =
      (compare_endpoint reg st).2 := ⟨rfl, rfl⟩

/-- Claim C2 counterexample: with version 2 served, a registry
presenting Production ordinal 1 (strictly lower) still triggers a swap
on that tick, because the code compares with `!=` rather than with
strictly-greater. -/
theorem claim_C2_counterexample :
    check_decision
      ⟨some "http://dagshub.example", .ok [⟨1, "r1", "Production", 5⟩], .ok 9⟩
      ⟨some 7, some "v2", ⟨some 2, some "r2", some "Production", some 4,
        some "DagsHub MLflow Registry"⟩⟩ = some ⟨1, "r1", "Production", 5⟩ ∧
    (1 : Nat) < 2 ∧
    (check_for_new_model
      ⟨some "http://dagshub.example", .ok [⟨1, "r1", "Production", 5⟩], .ok 9⟩
      ⟨some 7, some "v2", ⟨some 2, some "r2", some "Production", some 4,
        some "DagsHub MLflow Registry"⟩⟩).model = some 9 := by
  decide

/-- Claim C2 amended: on a poll tick that reaches the comparison (uri
configured, a non-falsy served version, a non-empty Production list), a
swap is triggered exactly when the registry's Production version
differs from the served version (decimal-string inequality, not
strictly-greater); an equal version never triggers a swap, on that tick
or any repetition of it. -/
theorem claim_C2_amended (env : TickEnv) (st : ServingState) (uri : String)
    (latest : RegVersion) (rest : List RegVersion) (cv : Nat)
    (hu : env.mlflowUri = some uri) (hhttp : strStartsWith uri "http" = true)
    (hv : st.model_metadata.version = some cv) (hcv : cv ≠ 0)
    (hp : env.prodVersions = .ok (latest :: rest)) :
    (check_decision env st = some latest ↔
      toString latest.version ≠ toString cv) ∧
    (toString latest.version = toString cv →
      check_for_new_model env st = st) := by
  have hd : check_decision env st =
      (if toString latest.version ≠ toString cv then some latest else none) := by
    simp only [check_decision, hu, hv, hp, hhttp]
    simp [hcv]
  constructor
  · rw [hd]
    by_cases he : toString latest.version = toString cv
    · simp [he]
    · simp [he]
  · intro he
    unfold check_for_new_model
    rw [hd]
    simp [he]

/-- Claim C2 amended witness: served version 2 against registry
Production version 3 triggers a swap; served version 2 against
registry Production version 2 leaves the state untouched. -/
theorem claim_C2_amended_witness :
    check_decision ⟨some "http://x", .ok [⟨3, "r3", "Production", 1⟩], .ok 5⟩
      ⟨some 7, some "v2", ⟨some 2, some "r2", some "Production", some 4,
        some "DagsHub MLflow Registry"⟩⟩ = some ⟨3, "r3", "Production", 1⟩ ∧
    check_for_new_model ⟨some "http://x", .ok [⟨2, "r2", "Production", 1⟩], .ok 5⟩
      ⟨some 7, some "v2", ⟨some 2, some "r2", some "Production", some 4,
        some "DagsHub MLflow Registry"⟩⟩ =
      ⟨some 7, some "v2", ⟨some 2, some "r2", some "Production", some 4,
        some "DagsHub MLflow Registry"⟩⟩ := by
  constructor
  · exact (claim_C2_amended _ _ "http://x" ⟨3, "r3", "Production", 1⟩ [] 2
      rfl (by decide) rfl (by decide) rfl).1.mpr (by decide)
  · exact (claim_C2_amended _ _ "http://x" ⟨2, "r2", "Production", 1⟩ [] 2
      rfl (by decide) rfl (by decide) rfl).2 (by decide)

/-- Claim C3 counterexample: a manual reload that fails both the
registry load and the local-file fallback sets the `model` global to
`None`, emptying the slot even though a model (artifact 7) was being
served before the attempt. -/
theorem claim_C3_counterexample :
    (⟨some 7, some "v2", ⟨some 2, some "r2", some "Production", some 4,
        some "DagsHub MLflow Registry"⟩⟩ : ServingState).model = some 7 ∧
    (reload_model ⟨true, .error "connection refused", none⟩
      ⟨some 7, some "v2", ⟨some 2, some "r2", some "Production", some 4,
        some "DagsHub MLflow Registry"⟩⟩).1.model = none := by
  decide

/-- Claim C3 amended: a failed load during a background poll tick
retains the previously-served model, but the manual reload endpoint
reruns the startup load path (`load_model`, registry then local-file
fallback) rather than the background swap path, and when both the
registry and the local file fail it leaves the slot empty. -/
theorem claim_C3_amended (env : TickEnv) (st : ServingState) (e : String)
    (he : env.reloadOutcome = .error e)
    (env' : StartupEnv) (st' : ServingState) (e' : String)
    (hc : env'.credsPresent = true) (hr : env'.registryOutcome = .error e')
    (hl : env'.localFile = none) :
    check_for_new_model env st = st ∧
    reload_model env' st' = (load_model env' st',
      ⟨"reloaded", (load_model env' st').model_version⟩) ∧
    (reload_model env' st').1.model = none := by
  refine ⟨?_, rfl, ?_⟩
  · unfold check_for_new_model
    cases hd : check_decision env st
    · rfl
    · rw [he]
  · simp [reload_model, load_model, load_local_model, hc, hr, hl]

/-- Claim C3 amended witness: a background tick with a failing reload
keeps the served state; a manual reload with registry and local file
both unavailable empties the slot. -/
theorem claim_C3_amended_witness :
    check_for_new_model ⟨some "http://x", .ok [⟨3, "r3", "Production", 1⟩],
        .error "load failed"⟩
      ⟨some 7, some "v2", ⟨some 2, some "r2", some "Production", some 4,
        some "DagsHub MLflow Registry"⟩⟩ =
      ⟨some 7, some "v2", ⟨some 2, some "r2", some "Production", some 4,
        some "DagsHub MLflow Registry"⟩⟩ ∧
    (reload_model ⟨true, .error "connection refused", none⟩
      ⟨some 8, some "v3", ModelMeta.empty⟩).1.model = none := by
  refine ⟨(claim_C3_amended _ _ "load failed" rfl
      ⟨true, .error "connection refused", none⟩
      ⟨some 8, some "v3", ModelMeta.empty⟩ "connection refused"
      rfl rfl rfl).1,
    (claim_C3_amended ⟨some "http://x", .ok [⟨3, "r3", "Production", 1⟩],
        .error "load failed"⟩
      ⟨some 7, some "v2", ⟨some 2, some "r2", some "Production", some 4,
        some "DagsHub MLflow Registry"⟩⟩ "load failed" rfl
      _ _ "connection refused" rfl rfl rfl).2.2⟩

/-- Claim C4 counterexample: with a present, nonzero previous R² of
−1/2 and a current R² of 1/2, the code short-circuits the delta to 0
although the claimed formula gives −200; so the formula does not hold
there, and the short-circuit fires on more than just zero-or-absent
previous values. -/
theorem claim_C4_counterexample :
    r2_delta (-(1/2)) (1/2) = 0 ∧
    ((1/2 : ℚ) - (-(1/2))) / (-(1/2)) * 100 = -200 ∧
    (-(1/2) : ℚ) ≠ 0 := by
  norm_num [r2_delta]

/-- Claim C4 amended: the comparison deltas equal the claimed formulas
whenever the previous value is strictly positive, and are 0 whenever
the previous value is non-positive — zero, absent (extracted as 0), or
negative — so no division error can occur. -/
theorem claim_C4_amended (previous current : ℚ) :
    (0 < previous →
      mae_delta previous current = (previous - current) / previous * 100 ∧
      rmse_delta previous current = (previous - current) / previous * 100 ∧
      r2_delta previous current = (current - previous) / previous * 100) ∧
    (previous ≤ 0 →
      mae_delta previous current = 0 ∧
      rmse_delta previous current = 0 ∧
      r2_delta previous current = 0) := by
  constructor
  · intro h
    simp [mae_delta, rmse_delta, r2_delta, h]
  · intro h
    simp [mae_delta, rmse_delta, r2_delta, not_lt.mpr h]

/-- Claim C4 amended witness: previous MAE 2 and current MAE 1 give
delta (2−1)/2×100; previous R² −1 gives delta 0. -/
theorem claim_C4_amended_witness :
    mae_delta 2 1 = (2 - 1) / 2 * 100 ∧ r2_delta (-1) 5 = 0 :=
  ⟨((claim_C4_amended 2 1).1 (by norm_num)).1,
   ((claim_C4_amended (-1) 5).2 (by norm_num)).2.2⟩

/-- Claim C8: when the registry load fails at startup and a local
artifact file exists, the slot is populated from the local file with
version `"Local File"` and metadata source `local_file`, the health
endpoint reports healthy, and every subsequent background poll tick is
a no-op that leaves the state unchanged. -/
theorem claim_C8 (env : StartupEnv) (st : ServingState) (e : String) (a : Nat)
    (hc : env.credsPresent = true) (hr : env.registryOutcome = .error e)
    (hl : env.localFile = some a) :
    (load_model env st).model = some a ∧
    (load_model env st).model_version = some "Local File" ∧
    (load_model env st).model_metadata.source = some "local_file" ∧
    health_check (load_model env st) = .ok ⟨"healthy", true, some "Local File"⟩ ∧
    ∀ tick : TickEnv,
      check_for_new_model tick (load_model env st) = load_model env st := by
  have hload : load_model env st =
      ⟨some a, some "Local File",
        { ModelMeta.empty with source := some "local_file" }⟩ := by
    simp [load_model, load_local_model, hc, hr, hl]
  refine ⟨by rw [hload], by rw [hload], by rw [hload], by rw [hload]; rfl, ?_⟩
  intro tick
  rw [hload]
  unfold check_for_new_model check_decision
  cases htick : tick.mlflowUri with
  | none => rfl
  | some uri =>
      by_cases hs : strStartsWith uri "http" <;> simp [hs, ModelMeta.empty]

/-- Claim C8 witness: registry unreachable, local artifact 3 present:
the slot holds artifact 3 as `"Local File"`, health is 200, and a tick
against a configured-but-unreachable registry is a no-op. -/
theorem claim_C8_witness :
    (load_model ⟨true, .error "registry unreachable", some 3⟩
        ⟨none, none, ModelMeta.empty⟩).model = some 3 ∧
    health_check (load_model ⟨true, .error "registry unreachable", some 3⟩
        ⟨none, none, ModelMeta.empty⟩) =
      .ok ⟨"healthy", true, some "Local File"⟩ ∧
    check_for_new_model
        ⟨some "http://dagshub.example", .error "still unreachable",
          .error "no load"⟩
        (load_model ⟨true, .error "registry unreachable", some 3⟩
          ⟨none, none, ModelMeta.empty⟩) =
      load_model ⟨true, .error "registry unreachable", some 3⟩
        ⟨none, none, ModelMeta.empty⟩ :=
  ⟨(claim_C8 _ _ "registry unreachable" 3 rfl rfl rfl).1,
   (claim_C8 _ _ "registry unreachable" 3 rfl rfl rfl).2.2.2.1,
   (claim_C8 _ _ "registry unreachable" 3 rfl rfl rfl).2.2.2.2 _⟩

/-- Claim C1 (refuted by the code): the schedule that runs the swap's
three global assignments between the predict handler's read of `model`
and its read of `model_version` is a valid interleaving of the two code
paths, and it completes with a prediction computed by artifact 1 paired
with version tag `"v2"` — a model/version pair that the globals never
held at any point of the run, i.e. a torn read.  This contradicts the
source's own `Update globals atomically` comment. -/
theorem claim_C1_bug :
    isInterleaving predictAccesses (swapAccesses 2 "v2" 2)
      [.readModel, .writeModel 2, .writeVersion "v2", .writeMeta 2,
       .readVersion] = true ∧
    (execAccesses ⟨⟨1, "v1", 1⟩, none, none⟩
      [.readModel, .writeModel 2, .writeVersion "v2", .writeMeta 2,
       .readVersion]).1.predictionFrom = some 1 ∧
    (execAccesses ⟨⟨1, "v1", 1⟩, none, none⟩
      [.readModel, .writeModel 2, .writeVersion "v2", .writeMeta 2,
       .readVersion]).1.responseVersion = some "v2" ∧
    ∀ g ∈ slotHistory ⟨⟨1, "v1", 1⟩, none, none⟩
      [.readModel, .writeModel 2, .writeVersion "v2", .writeMeta 2,
       .readVersion],
      ¬ (g.model = 1 ∧ g.model_version = "v2") := by
  decide

/-- Claim C10: with a model loaded, the compare endpoint never surfaces
an error status: it always returns a normal comparison response, and on
each failure while consulting the registry — search failure, no
versions, no Production version, missing metric run — that response has
`has_comparison = false` and carries the error text. -/
theorem claim_C10 (reg : Registry) (st : ServingState) (a : Nat)
    (h : st.model = some a) :
    (compare_endpoint reg st).2 = .ok (compare_models reg) ∧
    (∀ e, reg.searchVersions = .error e →
      compare_models reg = compareErrorResponse e) ∧
    (reg.searchVersions = .ok [] →
      compare_models reg = compareErrorResponse "No model versions found") ∧
    (∀ vs, reg.searchVersions = .ok vs → vs ≠ [] →
      (sortVersionsDesc vs).filter (fun v => v.stage = "Production") = [] →
      compare_models reg = compareErrorResponse "No Production model found") ∧
    (∀ vs c rest, reg.searchVersions = .ok vs →
      (sortVersionsDesc vs).filter (fun v => v.stage = "Production") =
        c :: rest →
      List.lookup c.runId reg.runs = none →
      compare_models reg =
        compareErrorResponse ("run " ++ c.runId ++ " not found")) ∧
    (∀ e, (compareErrorResponse e).has_comparison = false ∧
      (compareErrorResponse e).error = some e) := by
  refine ⟨?_, ?_, ?_, ?_, ?_, fun e => ⟨rfl, rfl⟩⟩
  · simp [compare_endpoint, h]
  · intro e he
    simp [compare_models, compare_models_body, he, Bind.bind, Except.bind]
  · intro he
    simp [compare_models, compare_models_body, he, Bind.bind, Except.bind,
      Pure.pure, Except.pure]
  · intro vs hvs hne hfilter
    simp [compare_models, compare_models_body, hvs, hfilter, Nat.lt_one_iff,
      List.length_eq_zero, hne, Bind.bind, Except.bind, Pure.pure, Except.pure]
  · intro vs c rest hvs hfilter hlook
    have hne : vs ≠ [] := by
      intro hnil
      rw [hnil] at hfilter
      simp [sortVersionsDesc] at hfilter
    simp [compare_models, compare_models_body, hvs, hfilter, Nat.lt_one_iff,
      List.length_eq_zero, hne, Registry.getRunMetrics, hlook,
      Bind.bind, Except.bind, Pure.pure, Except.pure]

/-- Claim C10 witness: a registry whose version search fails with
"registry boom" yields the normal error-shaped response. -/
theorem claim_C10_witness :
    compare_models ⟨.error "registry boom", []⟩ =
      compareErrorResponse "registry boom" :=
  (claim_C10 ⟨.error "registry boom", []⟩ ⟨some 5, some "v1", ModelMeta.empty⟩
    5 rfl).2.1 "registry boom" rfl

/-- Claim C5: when the registry versions contain a (unique)
Production-tagged version, compare selects it as "current"; "previous"
is the version with the greatest ordinal strictly below the current one
(gaps allowed), and when no lower ordinal exists the response carries
`has_comparison = false` with the first-version message and omits the
deltas instead of reporting zeros. -/
theorem claim_C5 (reg : Registry) (vs : List RegVersion) (p : RegVersion)
    (cm : MetricsDict)
    (hsv : reg.searchVersions = .ok vs)
    (hmem : p ∈ vs) (hstage : p.stage = "Production")
    (huniq : ∀ q ∈ vs, q.stage = "Production" → q = p)
    (hinj : ∀ a ∈ vs, ∀ b ∈ vs, a.version = b.version → a = b)
    (hcm : List.lookup p.runId reg.runs = some cm) :
    ((∀ y ∈ vs, ¬ y.version < p.version) →
      compare_models reg =
        { has_comparison := false
          error := none
          message := some "This is the first model version"
          current_version := some ⟨p.version, p.runId,
            ⟨metricOr cm "mae" "test_mae", metricOr cm "rmse" "test_rmse",
             metricOr cm "r2_score" "test_r2"⟩⟩
          previous_version := none
          deltas := none
          improvement := none }) ∧
    (∀ q, q ∈ vs → q.version < p.version →
      (∀ y ∈ vs, y.version < p.version → y.version ≤ q.version) →
      ∀ pm, List.lookup q.runId reg.runs = some pm →
        (compare_models reg).has_comparison = true ∧
        (compare_models reg).current_version = some ⟨p.version, p.runId,
          ⟨metricOr cm "mae" "test_mae", metricOr cm "rmse" "test_rmse",
           metricOr cm "r2_score" "test_r2"⟩⟩ ∧
        (compare_models reg).previous_version = some ⟨q.version, q.runId,
          ⟨metricOr pm "mae" "test_mae", metricOr pm "rmse" "test_rmse",
           metricOr pm "r2_score" "test_r2"⟩⟩) := by
  have hne : vs ≠ [] := List.ne_nil_of_mem hmem
  have hs := sortVersionsDesc_sorted vs
  have hmem' : p ∈ sortVersionsDesc vs := mem_sortVersionsDesc.mpr hmem
  obtain ⟨c, hfind⟩ : ∃ c, (sortVersionsDesc vs).find?
      (fun v => v.stage = "Production") = some c := by
    cases hf : (sortVersionsDesc vs).find? (fun v => v.stage = "Production") with
    | none =>
        have hcontra := List.find?_eq_none.mp hf p hmem'
        simp [hstage] at hcontra
    | some c => exact ⟨c, rfl⟩
  have hcp : c = p := by
    have h1 : c.stage = "Production" := by
      have := List.find?_some hfind
      simpa using this
    exact huniq c (mem_sortVersionsDesc.mp (List.mem_of_find?_eq_some hfind)) h1
  rw [hcp] at hfind
  obtain ⟨rest, hfilter⟩ : ∃ rest, (sortVersionsDesc vs).filter
      (fun v => v.stage = "Production") = p :: rest := by
    have hh : ((sortVersionsDesc vs).filter
        (fun v => v.stage = "Production")).head? = some p := by
      rw [head?_filter_eq_find?, hfind]
    cases hfl : (sortVersionsDesc vs).filter (fun v => v.stage = "Production") with
    | nil => rw [hfl] at hh; cases hh
    | cons x xs =>
        rw [hfl] at hh
        obtain rfl : x = p := by simpa using hh
        exact ⟨xs, rfl⟩
  constructor
  · intro hno
    have hfind2 : (sortVersionsDesc vs).find?
        (fun v => v.version < p.version) = none := by
      apply List.find?_eq_none.mpr
      intro x hx
      simp [hno x (mem_sortVersionsDesc.mp hx)]
    simp [compare_models, compare_models_body, hsv, hfilter, Nat.lt_one_iff,
      List.length_eq_zero, hne, Registry.getRunMetrics, hcm, hfind2,
      Bind.bind, Except.bind, Pure.pure, Except.pure]
  · intro q hqmem hqlt hqmax pm hpm
    obtain ⟨x, hfind2⟩ : ∃ x, (sortVersionsDesc vs).find?
        (fun v => v.version < p.version) = some x := by
      cases hf2 : (sortVersionsDesc vs).find? (fun v => v.version < p.version) with
      | none =>
          have hcontra := List.find?_eq_none.mp hf2 q (mem_sortVersionsDesc.mpr hqmem)
          simp [hqlt] at hcontra
      | some x => exact ⟨x, rfl⟩
    have hxlt : x.version < p.version := by
      have := List.find?_some hfind2
      simpa using this
    have hxmem : x ∈ vs := mem_sortVersionsDesc.mp (List.mem_of_find?_eq_some hfind2)
    have hxq : x = q := by
      refine hinj x hxmem q hqmem (le_antisymm (hqmax x hxmem hxlt) ?_)
      exact find?_version_max hs hfind2 q (mem_sortVersionsDesc.mpr hqmem)
        (by simpa using hqlt)
    rw [hxq] at hfind2
    refine ⟨?_, ?_, ?_⟩ <;>
      simp [compare_models, compare_models_body, hsv, hfilter, Nat.lt_one_iff,
        List.length_eq_zero, hne, Registry.getRunMetrics, hcm, hfind2, hpm,
        Bind.bind, Except.bind, Pure.pure, Except.pure]

/-- Claim C5 witness: registry with version 2 (Production, mae 5) and
version 1 (Archived, mae 8): current is version 2, previous is
version 1, and the comparison is present. -/
theorem claim_C5_witness :
    (compare_models ⟨.ok [⟨2, "r2", "Production", 10⟩, ⟨1, "r1", "Archived", 5⟩],
        [("r2", [("mae", 5)]), ("r1", [("mae", 8)])]⟩).has_comparison = true ∧
    (compare_models ⟨.ok [⟨2, "r2", "Production", 10⟩, ⟨1, "r1", "Archived", 5⟩],
        [("r2", [("mae", 5)]), ("r1", [("mae", 8)])]⟩).current_version =
      some ⟨2, "r2",
        ⟨metricOr [("mae", 5)] "mae" "test_mae",
         metricOr [("mae", 5)] "rmse" "test_rmse",
         metricOr [("mae", 5)] "r2_score" "test_r2"⟩⟩ ∧
    (compare_models ⟨.ok [⟨2, "r2", "Production", 10⟩, ⟨1, "r1", "Archived", 5⟩],
        [("r2", [("mae", 5)]), ("r1", [("mae", 8)])]⟩).previous_version =
      some ⟨1, "r1",
        ⟨metricOr [("mae", 8)] "mae" "test_mae",
         metricOr [("mae", 8)] "rmse" "test_rmse",
         metricOr [("mae", 8)] "r2_score" "test_r2"⟩⟩ :=
  claim_C5 ⟨.ok [⟨2, "r2", "Production", 10⟩, ⟨1, "r1", "Archived", 5⟩],
      [("r2", [("mae", 5)]), ("r1", [("mae", 8)])]⟩
    [⟨2, "r2", "Production", 10⟩, ⟨1, "r1", "Archived", 5⟩]
    ⟨2, "r2", "Production", 10⟩ [("mae", 5)]
    rfl (by decide) rfl (by decide) (by decide) rfl
    |>.2 ⟨1, "r1", "Archived", 5⟩ (by decide) (by decide) (by decide)
    [("mae", 8)] rfl
